import Mathlib

/-!
Verification of the asteroids game logic (src/main.rs, src/utils.rs).

Shallow embedding conventions:
* Rust `u8` counters (`score`, `lives` in `Game`, via `Fin 256`) use wrapping
  arithmetic, matching unsigned two's-complement wraparound; `Fin 256`
  addition and subtraction are exactly addition and subtraction mod 256.
* `f32` values are embedded as real numbers (`ℝ`) where trigonometry is
  involved, and as rationals (`ℚ`) in the purely arithmetic screen-bounds
  code, so that those facts are decidable.
* Bevy/Rapier systems become pure functions from their read state to the
  written state plus the lists of events they emit and the despawn commands
  they issue (command-buffer discipline: despawns are deferred, so a system
  run sees the pre-frame entity set).
* The collision oracle `rapier_context.intersection_pair` returns
  `Option Bool`; the handlers act exactly when it returns `some true`,
  mirroring `== Some(true)` in the source.
-/

open Real

/-- The four game states of `enum GameState` in src/main.rs. -/
inductive GameState where
  | Loading
  | InProgress
  | Ended
  | Waiting
deriving DecidableEq, Repr

/-- The `Game` singleton component: `score: u8`, `lives: u8`, `gameState`. -/
structure Game where
  score : Fin 256
  lives : Fin 256
  gameState : GameState
deriving DecidableEq

/-- Constant `INITIAL_SCORE: u8 = 0`. -/
def INITIAL_SCORE : Fin 256 := 0

/-- Constant `INITIAL_LIVES: u8 = 3`. -/
def INITIAL_LIVES : Fin 256 := 3

/-- Real-valued 2D vector, embedding glam `Vec2` (f32 pair). -/
structure Vec2R where
  x : ℝ
  y : ℝ

/-- Real-valued 3D vector, embedding glam `Vec3` (f32 triple). -/
structure Vec3R where
  x : ℝ
  y : ℝ
  z : ℝ

/-- Componentwise addition of `Vec2R`, embedding glam `Vec2` addition. -/
def Vec2add (a b : Vec2R) : Vec2R := ⟨a.x + b.x, a.y + b.y⟩

/-- Embedding of glam `Vec2::rotate`: `self.rotate(rhs)` is the complex
product, rotating `rhs` by the angle of `self`:
`(self.x*rhs.x - self.y*rhs.y, self.y*rhs.x + self.x*rhs.y)`. -/
def Vec2rotate (a b : Vec2R) : Vec2R :=
  ⟨a.x * b.x - a.y * b.y, a.y * b.x + a.x * b.y⟩

/-- Embedding of glam `Vec2::from_angle`: `(cos θ, sin θ)`. -/
noncomputable def Vec2fromAngle (θ : ℝ) : Vec2R := ⟨Real.cos θ, Real.sin θ⟩

/-- Rotation of a vector by an angle, stated the way the spec states it
("the parent's velocity rotated by ±0.7 radians"); to be compared with the
code's `Vec2rotate _ (Vec2fromAngle _)`. -/
noncomputable def rotateByAngle (θ : ℝ) (v : Vec2R) : Vec2R :=
  ⟨v.x * Real.cos θ - v.y * Real.sin θ, v.x * Real.sin θ + v.y * Real.cos θ⟩

/-- The payload of `struct MeteorSpawnEvent` in src/main.rs
(`size: u8`, `initial_velocity: Vec2`, `initial_position: Vec2`). -/
structure MeteorSpawnEvent where
  size : Nat
  initial_velocity : Vec2R
  initial_position : Vec2R

/-- The payload of `struct ShipSpawnEvent` in src/main.rs
(`initial_position: Vec2`, `initial_orientation: f32`). -/
structure ShipSpawnEvent where
  initial_position : Vec2R
  initial_orientation : ℝ

/-- The `StartGameEvent` unit struct in src/main.rs. -/
inductive StartGameEvent where
  | mk

/-- The ship respawn payload used both in `setup_physics` and in
`spaceship_collision`: position `(0,0)`, orientation `PI / 2`. -/
noncomputable def shipSpawnDefault : ShipSpawnEvent :=
  ⟨⟨0, 0⟩, Real.pi / 2⟩

/-- Embedding of the ship-meteor branch of `spaceship_collision`
(src/main.rs lines 207-220) for one meteor-ship pair, given the oracle
answer `rapier_context.intersection_pair(entity_meteor, entity_ship)`.
Returns the updated `Game`, whether a despawn command was issued for the
ship, and the list of `ShipSpawnEvent`s sent.  When the oracle answers
`some true`: the ship is despawned, `game.lives -= 1` (wrapping `u8`
subtraction, i.e. `Fin 256` subtraction), then if `game.lives > 0` a
respawn event is sent, else `game.gameState = Ended`. -/
noncomputable def shipMeteorHandler (oracle : Option Bool) (g : Game) :
    Game × Bool × List ShipSpawnEvent :=
  if oracle = some true then
    let lives' := g.lives - 1
    if (0 : Fin 256) < lives' then
      ({ g with lives := lives' }, true, [shipSpawnDefault])
    else
      ({ g with lives := lives', gameState := GameState.Ended }, true, [])
  else
    (g, false, [])

/-- One frame of the ship-meteor loop of `spaceship_collision`: the outer
loop ranges over the meteors currently intersecting checks with the single
ship; because `commands.entity(entity_ship).despawn()` is deferred to the
frame boundary, the ship is still present for every later meteor of the
same frame, so every oracle answer in the list is processed against the
same ship. -/
noncomputable def shipCollisionFrame (g : Game) (oracles : List (Option Bool)) :
    Game × List ShipSpawnEvent :=
  oracles.foldl
    (fun acc o =>
      let r := shipMeteorHandler o acc.1
      (r.1, acc.2 ++ r.2.2))
    (g, [])

/-- Embedding of the bullet-meteor branch of `spaceship_collision`
(src/main.rs lines 222-247) for one meteor-bullet pair: on `some true`,
`game.score += 1` (wrapping `u8` addition), then if `meteor.size > 2` two
`MeteorSpawnEvent`s are sent with size `meteor.size / 2`, velocities
`linvel.rotate(Vec2::from_angle(0.7))` and
`linvel.rotate(Vec2::from_angle(-0.7))`, both at the meteor's transform
translation; finally despawn commands are issued for the meteor and the
bullet (the two booleans returned). -/
noncomputable def bulletMeteorHandler (oracle : Option Bool) (g : Game)
    (msize : Nat) (mvel mpos : Vec2R) :
    Game × List MeteorSpawnEvent × Bool × Bool :=
  if oracle = some true then
    ({ g with score := g.score + 1 },
      (if 2 < msize then
        [⟨msize / 2, Vec2rotate mvel (Vec2fromAngle (7/10)), mpos⟩,
         ⟨msize / 2, Vec2rotate mvel (Vec2fromAngle (-(7/10))), mpos⟩]
      else []),
      true, true)
  else
    (g, [], false, false)

/-- Embedding of `setup_physics` (src/main.rs lines 69-96).  The four
`random::<f32>()` draws are passed in as parameters `r1 r2 r3 r4`, the
primary window's dimensions as `w h`.  When the game state is `Loading`
it sends one `MeteorSpawnEvent` of size 8 with random velocity/position,
one `ShipSpawnEvent` at `(0,0)` with orientation `PI/2`, and sets the
state to `InProgress`; otherwise it does nothing. -/
noncomputable def setup_physics (w h r1 r2 r3 r4 : ℝ) (g : Game) :
    Game × List MeteorSpawnEvent × List ShipSpawnEvent :=
  if g.gameState = GameState.Loading then
    ({ g with gameState := GameState.InProgress },
     [⟨8, ⟨r1 * 100 - 50, r2 * 100 - 50⟩, ⟨(r3 - 1/2) * w, (r4 - 1/2) * h⟩⟩],
     [shipSpawnDefault])
  else
    (g, [], [])

/-- An RGB colour, embedding bevy `Color::rgb` (components as rationals). -/
structure ColorRGB where
  r : ℚ
  g : ℚ
  b : ℚ
deriving DecidableEq

/-- Constant `NORMAL_BUTTON = Color::rgb(0.15, 0.15, 0.15)`. -/
def NORMAL_BUTTON : ColorRGB := ⟨15/100, 15/100, 15/100⟩

/-- Constant `HOVERED_BUTTON = Color::rgb(0.25, 0.25, 0.25)`. -/
def HOVERED_BUTTON : ColorRGB := ⟨25/100, 25/100, 25/100⟩

/-- Constant `PRESSED_BUTTON = Color::rgb(0.35, 0.75, 0.35)`. -/
def PRESSED_BUTTON : ColorRGB := ⟨35/100, 75/100, 35/100⟩

/-- The bevy `Interaction` states observed by `button_interaction`. -/
inductive Interaction where
  | Clicked
  | Hovered
  | None
deriving DecidableEq

/-- Embedding of `button_interaction` (src/main.rs lines 417-438) for one
changed button: returns the colour written to the button and whether a
`StartGameEvent` was sent (only on `Clicked`). -/
def button_interaction (i : Interaction) : ColorRGB × Bool :=
  match i with
  | Interaction.Clicked => (PRESSED_BUTTON, true)
  | Interaction.Hovered => (HOVERED_BUTTON, false)
  | Interaction.None => (NORMAL_BUTTON, false)

/-- Embedding of `update_game_state` (src/main.rs lines 390-411): for each
`StartGameEvent` read this frame, set state to `Loading` and reset lives
and score to `INITIAL_LIVES` / `INITIAL_SCORE`; then, for each meteor
entity, despawn it when the state is `Ended` (the second component is the
number of meteor despawn commands issued, out of `meteorCount` meteors). -/
def update_game_state (g : Game) (evs : List StartGameEvent)
    (meteorCount : Nat) : Game × Nat :=
  let g' := evs.foldl
    (fun acc _ =>
      { acc with gameState := GameState.Loading,
                 lives := INITIAL_LIVES,
                 score := INITIAL_SCORE })
    g
  (g', match g'.gameState with
       | GameState.Ended => meteorCount
       | _ => 0)

/-- The two values of bevy `Display` used by the UI systems. -/
inductive Display where
  | None
  | Flex
deriving DecidableEq

/-- Embedding of `update_button` (src/main.rs lines 577-589): the start
button's `display` as a function of the game state. -/
def update_button (s : GameState) : Display :=
  match s with
  | GameState.InProgress => Display.None
  | GameState.Ended | GameState.Waiting | GameState.Loading => Display.Flex

/-- Embedding of `update_message` (src/main.rs lines 591-603): the
"Game Over" message's `display` as a function of the game state. -/
def update_message (s : GameState) : Display :=
  match s with
  | GameState.InProgress | GameState.Waiting | GameState.Loading =>
      Display.None
  | GameState.Ended => Display.Flex

/-- A 2D position with rational coordinates, for the screen-bounds code
(`transform.translation` restricted to the axes it reads). -/
structure PosQ where
  x : ℚ
  y : ℚ
deriving DecidableEq

/-- The `custom_size` field of a bevy `Sprite`, as read by `screen_wrap`. -/
structure SpriteQ where
  custom_size : Option (ℚ × ℚ)
deriving DecidableEq

/-- The `biggest_dimension` computation of `screen_wrap` (src/main.rs lines
164-167): `0.0`, overwritten with `size.x.max(size.y)` when the sprite has
a custom size. -/
def biggestDimension (s : SpriteQ) : ℚ :=
  match s.custom_size with
  | some sz => max sz.1 sz.2
  | none => 0

/-- Embedding of `screen_wrap` (src/main.rs lines 161-175) for one tagged
entity: each axis of the translation is negated when
`|coord| - biggest_dimension / 2 > half viewport extent`. -/
def screen_wrap (w h : ℚ) (s : SpriteQ) (p : PosQ) : PosQ :=
  let big := biggestDimension s
  ⟨if |p.x| - big / 2 > w / 2 then -p.x else p.x,
   if |p.y| - big / 2 > h / 2 then -p.y else p.y⟩

/-- Real-number `mod`: `rmod a b = a - b * ⌊a / b⌋`, the mathematical
remainder used to state the spec's orientation-wrap formula. -/
noncomputable def rmod (a b : ℝ) : ℝ := a - b * ⌊a / b⌋

/-- Modelled from the spec: the orientation update of the hand-rolled
kinematics variant, `orientation = (orientation + turn_delta + 2π) mod 2π`.
This formula is not present under src/ (src/main.rs stores orientation as a
quaternion and src/utils.rs contains no orientation update), so it is taken
verbatim from the specification text. -/
noncomputable def wrapOrientation (θ d : ℝ) : ℝ :=
  rmod (θ + d + 2 * Real.pi) (2 * Real.pi)

/-- Embedding of Rust `f32::atan2(y, x)` as the argument of the complex
number `x + y*I` (which agrees with atan2 on every input, including
`atan2 0 0 = 0`). -/
noncomputable def atan2 (y x : ℝ) : ℝ := Complex.arg (Complex.mk x y)

/-- A quaternion as four real components, embedding glam `Quat`. -/
structure QuatR where
  x : ℝ
  y : ℝ
  z : ℝ
  w : ℝ

/-- Embedding of glam `Quat::from_axis_angle` for a (unit) `axis`:
`(axis * sin(angle/2), cos(angle/2))`. -/
noncomputable def QuatR.from_axis_angle (axis : Vec3R) (angle : ℝ) : QuatR :=
  ⟨axis.x * Real.sin (angle / 2),
   axis.y * Real.sin (angle / 2),
   axis.z * Real.sin (angle / 2),
   Real.cos (angle / 2)⟩

/-- Embedding of glam `Quat::to_axis_angle`: with `len` the norm of the
vector part, returns `(X axis, 0)` when `len` vanishes and otherwise the
normalised vector part together with the angle `2 * atan2(len, w)` (the
float implementation's epsilon cutoff is the embedded reals' exact zero
test). -/
noncomputable def QuatR.to_axis_angle (q : QuatR) : Vec3R × ℝ :=
  let len := Real.sqrt (q.x ^ 2 + q.y ^ 2 + q.z ^ 2)
  if len = 0 then (⟨1, 0, 0⟩, 0)
  else (⟨q.x / len, q.y / len, q.z / len⟩, 2 * atan2 len q.w)

/-- Embedding of `create_movement_vector` (src/utils.rs lines 3-9): the
Rust code takes component `.1` of the axis-angle pair — the bare angle,
discarding the axis — and returns `(cos(angle) * v, sin(angle) * v)`. -/
noncomputable def create_movement_vector (orientation : QuatR) (velocity : ℝ) :
    Vec2R :=
  let rotation := orientation.to_axis_angle.2
  ⟨Real.cos rotation * velocity, Real.sin rotation * velocity⟩

/-- Embedding of `transform_vector` (src/utils.rs lines 11-13):
`*position += create_movement_vector(orientation, velocity)`. -/
noncomputable def transform_vector (position : Vec2R) (orientation : QuatR)
    (velocity : ℝ) : Vec2R :=
  Vec2add position (create_movement_vector orientation velocity)

/-- Helper: wrapping `u8` decrement agrees with exact decrement when at
least one life remains. -/
theorem fin256_sub_one_val (a : Fin 256) (h : 1 ≤ a.val) :
    (a - 1).val = a.val - 1 := by
  rw [Fin.sub_def]
  simp only [Fin.val_one]
  omega

/-- Claim C1 (amended with the precondition, forced by the counterexample,
that at least one life remains when the collision event is processed): on a
ship-meteor collision reported `some true` while the ship exists, the ship
is despawned, lives is decremented by exactly 1, and then: if lives remains
positive exactly one respawn event is emitted with spawn position `(0,0)`
and orientation `π/2`, while if lives reaches 0 the state becomes `Ended`
and no respawn event is emitted. -/
theorem spaceship_collision_ship_hit (g : Game) (h : 1 ≤ g.lives.val) :
    (shipMeteorHandler (some true) g).2.1 = true ∧
    (shipMeteorHandler (some true) g).1.lives.val = g.lives.val - 1 ∧
    (1 < g.lives.val →
      (shipMeteorHandler (some true) g).2.2 = [shipSpawnDefault] ∧
      (shipMeteorHandler (some true) g).1.gameState = g.gameState) ∧
    (g.lives.val = 1 →
      (shipMeteorHandler (some true) g).2.2 = [] ∧
      (shipMeteorHandler (some true) g).1.gameState = GameState.Ended) := by
  have hsub : (g.lives - 1).val = g.lives.val - 1 := fin256_sub_one_val _ h
  have hlt : ((0 : Fin 256) < g.lives - 1) ↔ 1 < g.lives.val := by
    rw [Fin.lt_def, hsub]
    omega
  simp only [shipMeteorHandler, if_pos rfl]
  by_cases hc : (0 : Fin 256) < g.lives - 1
  · rw [if_pos hc]
    exact ⟨rfl, hsub, fun _ => ⟨rfl, rfl⟩,
      fun h1 => absurd (hlt.mp hc) (by omega)⟩
  · rw [if_neg hc]
    have h1 : ¬ 1 < g.lives.val := fun hgt => hc (hlt.mpr hgt)
    exact ⟨rfl, hsub, fun hgt => absurd hgt h1, fun _ => ⟨rfl, rfl⟩⟩

/-- Witness for `spaceship_collision_ship_hit` at a concrete game with
3 lives. -/
theorem spaceship_collision_ship_hit_witness :
    1 ≤ (Game.mk 0 3 GameState.InProgress).lives.val ∧
    (shipMeteorHandler (some true) (Game.mk 0 3 GameState.InProgress)).1.lives.val
      = (Game.mk 0 3 GameState.InProgress).lives.val - 1 ∧
    (shipMeteorHandler (some true) (Game.mk 0 3 GameState.InProgress)).2.2
      = [shipSpawnDefault] :=
  ⟨by decide,
   (spaceship_collision_ship_hit (Game.mk 0 3 GameState.InProgress) (by decide)).2.1,
   ((spaceship_collision_ship_hit (Game.mk 0 3 GameState.InProgress) (by decide)).2.2.1
     (by decide)).1⟩

/-- Claim C1 counterexample: when a ship-meteor collision event is processed
while the ship entity still exists (its despawn being deferred) but lives is
already 0, the unsigned counter is not decremented by exactly 1 — it wraps
to 255, and a respawn event is even emitted. -/
theorem spaceship_collision_lives_zero_cex :
    ¬ ((shipMeteorHandler (some true) (Game.mk 0 0 GameState.InProgress)).1.lives.val + 1
        = (Game.mk 0 0 GameState.InProgress).lives.val) ∧
    (shipMeteorHandler (some true) (Game.mk 0 0 GameState.InProgress)).2.2 ≠ [] := by
  constructor
  · decide
  · simp only [shipMeteorHandler, if_pos rfl]
    rw [if_pos (by decide : (0 : Fin 256) < (Game.mk 0 0 GameState.InProgress).lives - 1)]
    simp

/-- Claim C4: the lives decrement is wrapping unsigned 8-bit subtraction
with no zero guard; it is exact (safe) whenever `1 ≤ lives`, and with two
meteors both intersecting the still-present ship in the same frame while
`lives = 1`, the second decrement happens at `lives = 0` and underflows the
counter to 255. -/
theorem lives_underflow_double_hit (g : Game) (h : 1 ≤ g.lives.val) :
    (g.lives - 1).val = g.lives.val - 1 ∧
    (g.lives.val = 1 →
      (shipCollisionFrame g [some true, some true]).1.lives.val = 255) := by
  refine ⟨fin256_sub_one_val _ h, fun h1 => ?_⟩
  obtain ⟨gs, gl, gst⟩ := g
  have hl : gl = 1 := Fin.ext (by simpa using h1)
  subst hl
  rfl

/-- Witness for `lives_underflow_double_hit` at a concrete game with a
single life: the double hit drives the counter to 255. -/
theorem lives_underflow_double_hit_witness :
    1 ≤ (Game.mk 0 1 GameState.InProgress).lives.val ∧
    (shipCollisionFrame (Game.mk 0 1 GameState.InProgress)
        [some true, some true]).1.lives.val = 255 :=
  ⟨by decide,
   (lives_underflow_double_hit (Game.mk 0 1 GameState.InProgress) (by decide)).2
     (by decide)⟩

/-- Claim C5 (amended): UI visibility is a pure function of the game state,
but the two widgets differ: the start button is shown exactly when the state
is not `InProgress` (i.e. in `Waiting`, `Ended`, `Loading`), while the
"Game Over" message is shown exactly in `Ended` and hidden in every other
state. -/
theorem ui_visibility_of_state (s : GameState) :
    update_button s =
      (if s = GameState.InProgress then Display.None else Display.Flex) ∧
    update_message s =
      (if s = GameState.Ended then Display.Flex else Display.None) := by
  cases s <;> exact ⟨by decide, by decide⟩

/-- Claim C5 counterexample: in state `Waiting` the "Game Over" message is
hidden, although the claim says it is displayed in `Waiting`. -/
theorem update_message_waiting_cex :
    ¬ (update_message GameState.Waiting = Display.Flex) := by decide

/-- Claim C8: every start-game event (emitted by a start-button click)
sets the state to `Loading` and resets score and lives to their initial
values 0 and 3, from any state — in particular from `Ended` and `Waiting`. -/
theorem start_event_resets_game (g : Game) (n : Nat) :
    (button_interaction Interaction.Clicked).2 = true ∧
    (update_game_state g [StartGameEvent.mk] n).1 =
      Game.mk INITIAL_SCORE INITIAL_LIVES GameState.Loading ∧
    INITIAL_SCORE = 0 ∧ INITIAL_LIVES = 3 := by
  refine ⟨rfl, ?_, rfl, rfl⟩
  obtain ⟨gs, gl, gst⟩ := g
  rfl

/-- Claim C3 counterexample: with viewport 100×100 and a sprite of bounding
dimension 10, an entity at `x = viewport_width/2 + 1 = 51` is NOT negated
by `screen_wrap` (the claim predicts `x` becomes `-51` for every bounding
size). -/
theorem screen_wrap_claim_cex :
    ¬ ((screen_wrap 100 100 (SpriteQ.mk (some (10, 10))) (PosQ.mk 51 0)).x = -51) := by
  norm_num [screen_wrap, biggestDimension]

/-- Claim C3 (amended, as forced by the counterexample): `screen_wrap`
negates an axis of the position exactly when the absolute value of that
coordinate exceeds half the viewport extent PLUS half the entity's bounding
dimension (the source subtracts half the bounding dimension from the
absolute coordinate before comparing with the half viewport); consequently
an entity at `x = viewport_width/2 + 1` is negated only when its bounding
dimension is below 2. -/
theorem screen_wrap_threshold (w h : ℚ) (s : SpriteQ) (p : PosQ) :
    (screen_wrap w h s p).x =
      (if |p.x| > w / 2 + biggestDimension s / 2 then -p.x else p.x) ∧
    (screen_wrap w h s p).y =
      (if |p.y| > h / 2 + biggestDimension s / 2 then -p.y else p.y) := by
  constructor <;>
    · simp only [screen_wrap]
      refine if_congr ?_ rfl rfl
      rw [gt_iff_lt, gt_iff_lt, lt_sub_iff_add_lt]

/-- Claim C10: the screen wrap step is involutive: applying `screen_wrap`
twice in succession restores the original position (the wrap condition
depends only on the absolute value of each coordinate, which negation
preserves). -/
theorem screen_wrap_involutive (w h : ℚ) (s : SpriteQ) (p : PosQ) :
    screen_wrap w h s (screen_wrap w h s p) = p := by
  obtain ⟨px, py⟩ := p
  simp only [screen_wrap, PosQ.mk.injEq]
  constructor <;> split_ifs <;> simp_all [abs_neg]

/-- Helper: the code's `v.rotate(Vec2::from_angle θ)` is exactly rotation
of `v` by the angle `θ`. -/
theorem vec2rotate_from_angle (v : Vec2R) (θ : ℝ) :
    Vec2rotate v (Vec2fromAngle θ) = rotateByAngle θ v := by
  simp only [Vec2rotate, Vec2fromAngle, rotateByAngle]
  congr 1
  ring

/-- Claim C2 (amended only in that the u8 score increment is wrapping, i.e.
modulo 256, as forced by the counterexample at score 255): on a
bullet-meteor collision reported `some true`, the score is incremented by 1
modulo 256, despawn commands are issued for both the parent meteor and the
bullet, and exactly when the parent's size exceeds 2 exactly two child
meteor spawn events are emitted, each of half the parent's size, at the
parent's last position, with velocities equal to the parent's velocity
rotated by +0.7 and -0.7 radians respectively. -/
theorem bullet_meteor_collision (g : Game) (msize : Nat) (mvel mpos : Vec2R) :
    (bulletMeteorHandler (some true) g msize mvel mpos).1.score.val
      = (g.score.val + 1) % 256 ∧
    (bulletMeteorHandler (some true) g msize mvel mpos).2.2 = (true, true) ∧
    (2 < msize →
      (bulletMeteorHandler (some true) g msize mvel mpos).2.1 =
        [⟨msize / 2, rotateByAngle (7/10) mvel, mpos⟩,
         ⟨msize / 2, rotateByAngle (-(7/10)) mvel, mpos⟩]) ∧
    (¬ 2 < msize →
      (bulletMeteorHandler (some true) g msize mvel mpos).2.1 = []) := by
  have hunfold : bulletMeteorHandler (some true) g msize mvel mpos =
      ({ g with score := g.score + 1 },
        (if 2 < msize then
          [⟨msize / 2, rotateByAngle (7/10) mvel, mpos⟩,
           ⟨msize / 2, rotateByAngle (-(7/10)) mvel, mpos⟩]
        else []),
        true, true) := by
    simp [bulletMeteorHandler, vec2rotate_from_angle]
  refine ⟨?_, ?_, fun hgt => ?_, fun hle => ?_⟩ <;> rw [hunfold] <;> dsimp only
  · rw [Fin.val_add, Fin.val_one]
  · rw [if_pos hgt]
  · rw [if_neg hle]

/-- Witness for `bullet_meteor_collision`: the spec's scenario, a meteor of
size 8 hit by a bullet, yields score `+1` and exactly two size-4 children
at the parent's position with the ±0.7-rotated velocities. -/
theorem bullet_meteor_collision_witness :
    2 < 8 ∧
    (bulletMeteorHandler (some true) (Game.mk 0 3 GameState.InProgress)
        8 (Vec2R.mk 1 0) (Vec2R.mk 5 6)).1.score.val
      = ((Game.mk 0 3 GameState.InProgress).score.val + 1) % 256 ∧
    (bulletMeteorHandler (some true) (Game.mk 0 3 GameState.InProgress)
        8 (Vec2R.mk 1 0) (Vec2R.mk 5 6)).2.1 =
      [⟨8 / 2, rotateByAngle (7/10) (Vec2R.mk 1 0), Vec2R.mk 5 6⟩,
       ⟨8 / 2, rotateByAngle (-(7/10)) (Vec2R.mk 1 0), Vec2R.mk 5 6⟩] :=
  ⟨by decide,
   (bullet_meteor_collision (Game.mk 0 3 GameState.InProgress) 8
     (Vec2R.mk 1 0) (Vec2R.mk 5 6)).1,
   (bullet_meteor_collision (Game.mk 0 3 GameState.InProgress) 8
     (Vec2R.mk 1 0) (Vec2R.mk 5 6)).2.2.1 (by decide)⟩

/-- Claim C2 counterexample: at score 255 the u8 score counter wraps to 0
rather than being incremented by exactly 1. -/
theorem bullet_meteor_score_wrap_cex :
    ¬ ((bulletMeteorHandler (some true) (Game.mk 255 3 GameState.InProgress)
        8 (Vec2R.mk 0 0) (Vec2R.mk 0 0)).1.score.val
      = (Game.mk 255 3 GameState.InProgress).score.val + 1) := by
  decide

/-- Claim C7: whenever the game state is `Loading`, the `setup_physics`
step emits exactly one meteor spawn event of size 8 and exactly one ship
spawn event at `(0,0)` with orientation `π/2`, and moves the state to
`InProgress`; from any other state it emits nothing and leaves the game
unchanged. -/
theorem setup_physics_loading (g : Game) (w h r1 r2 r3 r4 : ℝ) :
    (g.gameState = GameState.Loading →
      setup_physics w h r1 r2 r3 r4 g =
        ({ g with gameState := GameState.InProgress },
         [⟨8, ⟨r1 * 100 - 50, r2 * 100 - 50⟩, ⟨(r3 - 1/2) * w, (r4 - 1/2) * h⟩⟩],
         [shipSpawnDefault])) ∧
    (g.gameState ≠ GameState.Loading →
      setup_physics w h r1 r2 r3 r4 g = (g, [], [])) := by
  constructor <;> intro hg <;> simp [setup_physics, hg]

/-- Witness for `setup_physics_loading`: from `Loading` the spawn events
are emitted and the state moves to `InProgress`; from `Waiting` nothing
happens. -/
theorem setup_physics_loading_witness :
    (Game.mk 0 3 GameState.Loading).gameState = GameState.Loading ∧
    setup_physics 0 0 0 0 0 0 (Game.mk 0 3 GameState.Loading) =
      ({ Game.mk 0 3 GameState.Loading with gameState := GameState.InProgress },
       [⟨8, ⟨0 * 100 - 50, 0 * 100 - 50⟩, ⟨(0 - 1/2) * 0, (0 - 1/2) * 0⟩⟩],
       [shipSpawnDefault]) ∧
    (Game.mk 0 3 GameState.Waiting).gameState ≠ GameState.Loading ∧
    setup_physics 0 0 0 0 0 0 (Game.mk 0 3 GameState.Waiting) =
      (Game.mk 0 3 GameState.Waiting, [], []) :=
  ⟨rfl,
   (setup_physics_loading (Game.mk 0 3 GameState.Loading) 0 0 0 0 0 0).1 rfl,
   by decide,
   (setup_physics_loading (Game.mk 0 3 GameState.Waiting) 0 0 0 0 0 0).2
     (by decide)⟩

/-- Helper: for positive modulus `b`, `rmod a b` lies in `[0, b)`. -/
theorem rmod_mem_Ico (a b : ℝ) (hb : 0 < b) : rmod a b ∈ Set.Ico 0 b := by
  have hfr : rmod a b = b * Int.fract (a / b) := by
    simp only [rmod, Int.fract]
    field_simp
  constructor
  · rw [hfr]
    exact mul_nonneg hb.le (Int.fract_nonneg _)
  · rw [hfr]
    calc b * Int.fract (a / b) < b * 1 :=
          mul_lt_mul_of_pos_left (Int.fract_lt_one _) hb
    _ = b := mul_one b

/-- Claim C6: for every orientation `θ` and every turn delta `d`, the
orientation update `(θ + d + 2π) mod 2π` lands in `[0, 2π)` (the update is
modelled from the spec, the hand-rolled kinematics variant being absent
from src/). -/
theorem orientation_wrap_mem_Ico (θ d : ℝ) :
    wrapOrientation θ d ∈ Set.Ico 0 (2 * Real.pi) :=
  rmod_mem_Ico _ _ (by positivity)

/-- Helper: `atan2 (sin α) (cos α) = α` on the principal range `(-π, π]`. -/
theorem atan2_cos_sin (α : ℝ) (h1 : -Real.pi < α) (h2 : α ≤ Real.pi) :
    atan2 (Real.sin α) (Real.cos α) = α := by
  simp only [atan2]
  rw [Complex.mk_eq_add_mul_I, Complex.ofReal_cos, Complex.ofReal_sin]
  exact Complex.arg_cos_add_sin_mul_I ⟨h1, h2⟩

/-- Claim C9 (amended, as forced by the counterexample, to angles
`θ ∈ [0, 2π]`, the range on which the discarded axis sign of
`to_axis_angle` is `+Z`): for a rotation about the z axis by such an angle
`θ` and any speed `v`, one tick of the hand-rolled integrator adds exactly
`(cos θ * v, sin θ * v)` to the position (the pure functions touch neither
the orientation nor the speed). -/
theorem create_movement_vector_angle (θ v : ℝ) (p : Vec2R) (h0 : 0 ≤ θ)
    (h2 : θ ≤ 2 * Real.pi) :
    create_movement_vector (QuatR.from_axis_angle ⟨0, 0, 1⟩ θ) v =
      ⟨Real.cos θ * v, Real.sin θ * v⟩ ∧
    transform_vector p (QuatR.from_axis_angle ⟨0, 0, 1⟩ θ) v =
      Vec2add p ⟨Real.cos θ * v, Real.sin θ * v⟩ := by
  have hπ := Real.pi_pos
  have hs : 0 ≤ Real.sin (θ / 2) :=
    Real.sin_nonneg_of_nonneg_of_le_pi (by linarith) (by linarith)
  have hlen : Real.sqrt ((0 * Real.sin (θ / 2)) ^ 2 + (0 * Real.sin (θ / 2)) ^ 2
      + (1 * Real.sin (θ / 2)) ^ 2) = Real.sin (θ / 2) := by
    rw [show (0 * Real.sin (θ / 2)) ^ 2 + (0 * Real.sin (θ / 2)) ^ 2
      + (1 * Real.sin (θ / 2)) ^ 2 = Real.sin (θ / 2) ^ 2 by ring]
    exact Real.sqrt_sq hs
  have key : create_movement_vector (QuatR.from_axis_angle ⟨0, 0, 1⟩ θ) v =
      Vec2R.mk (Real.cos θ * v) (Real.sin θ * v) := by
    simp only [create_movement_vector, QuatR.from_axis_angle,
      QuatR.to_axis_angle, hlen]
    by_cases hz : Real.sin (θ / 2) = 0
    · rw [if_pos hz]
      obtain ⟨n, hn⟩ := Real.sin_eq_zero_iff.mp hz
      have hn0 : (0 : ℝ) ≤ (n : ℝ) := by nlinarith
      have hn1 : (n : ℝ) ≤ 1 := by nlinarith
      have hn0' : (0 : ℤ) ≤ n := by exact_mod_cast hn0
      have hn1' : (n : ℤ) ≤ 1 := by exact_mod_cast hn1
      interval_cases n
      · have hθ : θ = 0 := by
          push_cast at hn
          linarith
        subst hθ
        rfl
      · have hθ : θ = 2 * Real.pi := by
          push_cast at hn
          linarith
        subst hθ
        show Vec2R.mk (Real.cos 0 * v) (Real.sin 0 * v) = _
        rw [Real.cos_zero, Real.sin_zero, Real.cos_two_pi, Real.sin_two_pi]
    · rw [if_neg hz]
      have harg : atan2 (Real.sin (θ / 2)) (Real.cos (θ / 2)) = θ / 2 :=
        atan2_cos_sin _ (by linarith) (by linarith)
      show Vec2R.mk
          (Real.cos (2 * atan2 (Real.sin (θ / 2)) (Real.cos (θ / 2))) * v)
          (Real.sin (2 * atan2 (Real.sin (θ / 2)) (Real.cos (θ / 2))) * v) = _
      rw [harg, show (2 : ℝ) * (θ / 2) = θ by ring]
  exact ⟨key, by simp only [transform_vector, key]⟩

/-- Witness for `create_movement_vector_angle` at the concrete angle
`θ = π/2` (the ship's spawn orientation) and speed 1. -/
theorem create_movement_vector_angle_witness :
    (0 : ℝ) ≤ Real.pi / 2 ∧ Real.pi / 2 ≤ 2 * Real.pi ∧
    create_movement_vector (QuatR.from_axis_angle ⟨0, 0, 1⟩ (Real.pi / 2)) 1 =
      ⟨Real.cos (Real.pi / 2) * 1, Real.sin (Real.pi / 2) * 1⟩ :=
  ⟨le_of_lt (by positivity),
   by nlinarith [Real.pi_pos],
   (create_movement_vector_angle (Real.pi / 2) 1 ⟨0, 0⟩
     (le_of_lt (by positivity)) (by nlinarith [Real.pi_pos])).1⟩

/-- Claim C9 counterexample: for the rotation about the z axis by the angle
`θ = -(π/2)` and speed 1, the integrator does NOT add
`(cos θ * v, sin θ * v)`: `to_axis_angle` returns the magnitude of the
angle with a flipped axis, the Rust code keeps only the magnitude, and the
y component comes out as `+1` instead of `-1`. -/
theorem create_movement_vector_neg_angle_cex :
    create_movement_vector (QuatR.from_axis_angle ⟨0, 0, 1⟩ (-(Real.pi / 2))) 1 ≠
      ⟨Real.cos (-(Real.pi / 2)) * 1, Real.sin (-(Real.pi / 2)) * 1⟩ := by
  have hπ := Real.pi_pos
  have hs4 : 0 < Real.sin (Real.pi / 4) :=
    Real.sin_pos_of_pos_of_lt_pi (by linarith) (by linarith)
  have hhalf : -(Real.pi / 2) / 2 = -(Real.pi / 4) := by ring
  have hsin : Real.sin (-(Real.pi / 2) / 2) = -Real.sin (Real.pi / 4) := by
    rw [hhalf, Real.sin_neg]
  have hcos : Real.cos (-(Real.pi / 2) / 2) = Real.cos (Real.pi / 4) := by
    rw [hhalf, Real.cos_neg]
  have hlen : Real.sqrt ((0 * Real.sin (-(Real.pi / 2) / 2)) ^ 2
      + (0 * Real.sin (-(Real.pi / 2) / 2)) ^ 2
      + (1 * Real.sin (-(Real.pi / 2) / 2)) ^ 2) = Real.sin (Real.pi / 4) := by
    rw [show (0 * Real.sin (-(Real.pi / 2) / 2)) ^ 2
      + (0 * Real.sin (-(Real.pi / 2) / 2)) ^ 2
      + (1 * Real.sin (-(Real.pi / 2) / 2)) ^ 2
      = Real.sin (-(Real.pi / 2) / 2) ^ 2 by ring, hsin]
    rw [show (-Real.sin (Real.pi / 4)) ^ 2 = Real.sin (Real.pi / 4) ^ 2 by ring]
    exact Real.sqrt_sq hs4.le
  simp only [create_movement_vector, QuatR.from_axis_angle, QuatR.to_axis_angle,
    hlen, hcos]
  rw [if_neg (ne_of_gt hs4)]
  have harg : atan2 (Real.sin (Real.pi / 4)) (Real.cos (Real.pi / 4))
      = Real.pi / 4 :=
    atan2_cos_sin _ (by linarith) (by linarith)
  show Vec2R.mk
      (Real.cos (2 * atan2 (Real.sin (Real.pi / 4)) (Real.cos (Real.pi / 4))) * 1)
      (Real.sin (2 * atan2 (Real.sin (Real.pi / 4)) (Real.cos (Real.pi / 4))) * 1) ≠ _
  rw [harg, show (2 : ℝ) * (Real.pi / 4) = Real.pi / 2 by ring]
  intro hcontra
  have hy := congrArg Vec2R.y hcontra
  simp only [Real.sin_pi_div_two, Real.sin_neg] at hy
  norm_num at hy
